import Mathlib

/-!
Shallow embedding of the OTP authentication core of the fastapi-template
backend: the OTP store (`app/crud/crud_one_time_password.py`), the OTP
authenticator (`app/crud/crud_user.py`), and the auth orchestrator /
endpoints (`app/api/api_v1/endpoints/auth.py`).

Modelling conventions:
* timestamps are UTC wall-clock instants measured in whole seconds as `Nat`;
  a `timedelta(minutes=m)` is `m * 60` seconds and `timedelta(days=d)` is
  `d * 86400` seconds;
* a database `Db` is a pair of row lists; SQLAlchemy `query(...).filter(p).first()`
  is `(rows.filter p).head?`, `.all()` is `rows.filter p`, `.delete()` keeps the
  complement, and a persisted insert appends the row;
* the random fresh verification code, the fresh row ids and the clock readings
  are passed as explicit parameters;
* raised `InvalidTokenException` / 401 `HTTPException` become the `Except`
  error values `AuthError.invalidToken` / `AuthError.unauthorized`.
-/

namespace OtpCore

/-- Row of the `person` table (`app/models/user.py`), restricted to the fields
the OTP core reads: id, unique email, optional password hash, and the
archived flag contributed by the `Archivable` mixin. -/
structure User where
  id : Nat
  email : String
  password_hash : Option String
  archived : Bool
deriving Repr, DecidableEq

/-- Row of the one-time-password table (`app/models/one_time_password.py`):
unique 6-char verification code, optional bound user id, unique owning email,
expiry timestamp. -/
structure OneTimePassword where
  id : Nat
  verification_code : String
  user_id : Option Nat
  email : String
  expires_at : Nat
deriving Repr, DecidableEq

/-- The configuration fields of `settings` (`app/core/config.py`, an external
collaborator per the spec) that the OTP core reads. -/
structure Settings where
  IS_PRODUCTION : Bool
  PERSISTENT_OTP : String
  APPLE_REVIEW_TEAM_EMAIL : String
  VERIFICATION_CODE_EXPIRATION_MINUTES : Nat
  APPLE_REVIEW_TEAM_OTP_EXPIRATION_DAYS : Nat
  ACCESS_TOKEN_EXPIRES_SECONDS : Nat
  REFRESH_TOKEN_EXPIRES_SECONDS : Nat
  EMAILS_ENABLED : Bool
deriving Repr

/-- Database state: the `person` rows and the one-time-password rows. -/
structure Db where
  users : List User
  otps : List OneTimePassword
deriving Repr, DecidableEq

/-- Errors surfaced by the authentication flow: `InvalidTokenException`
(`app/exceptions/auth.py`) and the 401 `HTTPException` raised by the
orchestrator. -/
inductive AuthError where
  | invalidToken
  | unauthorized
deriving Repr, DecidableEq

/-- Uniqueness invariant backing the unique index on
`OneTimePassword.verification_code`. -/
abbrev codesUnique (db : Db) : Prop :=
  (db.otps.map (fun o => o.verification_code)).Nodup

/-- Uniqueness invariant backing the unique constraint on
`OneTimePassword.email`. -/
abbrev emailsUnique (db : Db) : Prop :=
  (db.otps.map (fun o => o.email)).Nodup

/-- `CRUDUser.get_by_email` (crud_user.py lines 25-30) with the default
`with_archived = False`: first user row with this email, archived rows
filtered out by `filter_archivable`. -/
def getUserByEmail (db : Db) (email : String) : Option User :=
  (db.users.filter (fun u => u.email == email && !u.archived)).head?

/-- `CRUDOneTimePassword.get_by_verification_code` (crud_one_time_password.py
lines 19-24). -/
def get_by_verification_code (db : Db) (vc : String) : Option OneTimePassword :=
  (db.otps.filter (fun o => o.verification_code == vc)).head?

/-- `CRUDOneTimePassword.get_by_email` (crud_one_time_password.py lines 26-27). -/
def getOtpByEmail (db : Db) (email : String) : Option OneTimePassword :=
  (db.otps.filter (fun o => o.email == email)).head?

/-- `CRUDOneTimePassword.create_for_email` (crud_one_time_password.py lines
32-47): delete every row with this email, then persist one new row whose
expiry is now plus the configured TTL in minutes.  The freshly generated code
and the new row id are explicit parameters. -/
def create_for_email (s : Settings) (db : Db) (email : String)
    (user_id : Option Nat) (now : Nat) (freshCode : String) (freshId : Nat) :
    OneTimePassword × Db :=
  let remaining := db.otps.filter (fun o => !(o.email == email))
  let db_obj : OneTimePassword :=
    { id := freshId
      verification_code := freshCode
      user_id := user_id
      email := email
      expires_at := now + s.VERIFICATION_CODE_EXPIRATION_MINUTES * 60 }
  (db_obj, { db with otps := remaining ++ [db_obj] })

/-- `CRUDOneTimePassword.get_valid_otp` (crud_one_time_password.py lines
49-55): the row matching the code, but only when `expires_at > now`. -/
def get_valid_otp (db : Db) (vc : String) (now : Nat) : Option OneTimePassword :=
  match get_by_verification_code db vc with
  | some otp => if now < otp.expires_at then some otp else none
  | none => none

/-- Modelled from the spec: `authenticate_with_otp` calls
`crud_otp.get_valid_code`, a binding that lives in repository code outside the
provided sources (`app/crud/base.py` is absent); the spec's store operation
`getValid(code)` ("returns the record only if expiresAt > now") is
`get_valid_otp`. -/
def get_valid_code (db : Db) (vc : String) (now : Nat) : Option OneTimePassword :=
  get_valid_otp db vc now

/-- Modelled from the spec: `CRUDBase.remove` (`app/crud/base.py`, absent from
the provided sources) deletes the given row — the spec's `consume(record)`:
"deletes the row". -/
def remove (db : Db) (otp : OneTimePassword) : Db :=
  { db with otps := db.otps.filter (fun o => !(o.id == otp.id)) }

/-- `CRUDOneTimePassword.get_apple_review_team_otp` (crud_one_time_password.py
lines 72-73). -/
def get_apple_review_team_otp (s : Settings) (db : Db) : Option OneTimePassword :=
  getOtpByEmail db s.APPLE_REVIEW_TEAM_EMAIL

/-- `CRUDOneTimePassword.delete_apple_review_team_otp` (crud_one_time_password.py
lines 75-79): find the reviewer OTP by the reserved email and delete it when
present; also returns the deleted row. -/
def delete_apple_review_team_otp (s : Settings) (db : Db) :
    Option OneTimePassword × Db :=
  match get_apple_review_team_otp s db with
  | some otp => (some otp, remove db otp)
  | none => (none, db)

/-- `CRUDOneTimePassword.create_apple_review_team_otp` (crud_one_time_password.py
lines 57-70): delete the reviewer's existing OTP, then persist one bound to the
reviewer user with a TTL configured in days. -/
def create_apple_review_team_otp (s : Settings) (db : Db) (u : User)
    (now : Nat) (freshCode : String) (freshId : Nat) : OneTimePassword × Db :=
  let db1 := (delete_apple_review_team_otp s db).2
  let db_obj : OneTimePassword :=
    { id := freshId
      verification_code := freshCode
      user_id := some u.id
      email := u.email
      expires_at := now + s.APPLE_REVIEW_TEAM_OTP_EXPIRATION_DAYS * 86400 }
  (db_obj, { db1 with otps := db1.otps ++ [db_obj] })

/-- `CRUDOneTimePassword.get_expired_otps` (crud_one_time_password.py lines
86-87): all rows with `expires_at < now`. -/
def get_expired_otps (db : Db) (now : Nat) : List OneTimePassword :=
  db.otps.filter (fun o => o.expires_at < now)

/-- Modelled from the spec: `sweepExpired()` "returns/deletes all rows whose
expiry has passed; intended for periodic background invocation, not wired to
any request path in this core".  Only the query half, `get_expired_otps`, is
among the provided sources; the deleting wrapper is repository code outside
them, so its deletion is modelled here as removing exactly the returned rows. -/
def sweep_expired (db : Db) (now : Nat) : List OneTimePassword × Db :=
  (get_expired_otps db now,
   { db with otps := db.otps.filter (fun o => !(o.expires_at < now)) })

/-- Resolution of the `OneTimePassword.user` relationship
(`app/models/one_time_password.py` line 25): the user row the `user_id`
foreign key points at, if any. -/
def otpUser (db : Db) (otp : OneTimePassword) : Option User :=
  match otp.user_id with
  | some uid => (db.users.filter (fun u => u.id == uid)).head?
  | none => none

/-- `CRUDUser.handle_persistent_otp` (crud_user.py lines 89-95): outside
production, a submitted code equal to the configured persistent development
code authenticates the user looked up by email. -/
def handle_persistent_otp (s : Settings) (db : Db) (otp : String)
    (email : String) : Option User :=
  if s.IS_PRODUCTION then none
  else if otp != s.PERSISTENT_OTP then none
  else getUserByEmail db email

/-- `CRUDUser.handle_apple_review_team_otp` (crud_user.py lines 97-100): when
the matched record's email is the reserved reviewer email, its bound user. -/
def handle_apple_review_team_otp (s : Settings) (db : Db)
    (otp : OneTimePassword) : Option User :=
  if otp.email != s.APPLE_REVIEW_TEAM_EMAIL then none
  else otpUser db otp

/-- Steps 2-6 of `CRUDUser.authenticate_with_otp` (crud_user.py lines 105-116),
the code-lookup path that runs after the persistent-bypass check falls
through: valid-code lookup, reviewer short-circuit, email binding check, user
binding check, then consume-and-return. -/
def otp_lookup_path (s : Settings) (db : Db) (now : Nat) (email : String)
    (vc : String) : Except AuthError (User × Db) :=
  match get_valid_code db vc now with
  | none => .error .invalidToken
  | some otp =>
    match handle_apple_review_team_otp s db otp with
    | some user => .ok (user, db)
    | none =>
      if otp.email != email then .error .invalidToken
      else
        match otpUser db otp with
        | none => .error .invalidToken
        | some user => .ok (user, remove db otp)

/-- `CRUDUser.authenticate_with_otp` (crud_user.py lines 102-116): the
persistent bypass first, then the code-lookup path. -/
def authenticate_with_otp (s : Settings) (db : Db) (now : Nat)
    (email : String) (vc : String) : Except AuthError (User × Db) :=
  match handle_persistent_otp s db vc email with
  | some user => .ok (user, db)
  | none => otp_lookup_path s db now email vc

/-- `CRUDUser.create` (crud_user.py lines 51-74) as invoked by the
orchestrator with `UserCreate(email=email)`: a new customer row with only the
email set, no password hash. -/
def user_create (db : Db) (email : String) (freshId : Nat) : User × Db :=
  let u : User :=
    { id := freshId, email := email, password_hash := none, archived := false }
  (u, { db with users := db.users ++ [u] })

/-- The part of `schemas.AuthResponse` (`app/schemas/auth.py`) the core
computes itself: the two absolute expiry timestamps, the token type and the
user.  The opaque signed token strings are minted by `app/core/security.py`,
a black-box collaborator per the spec. -/
structure AuthResponse where
  access_token_expiration_date : Nat
  refresh_token_expiration_date : Nat
  token_type : String
  user : User
deriving Repr, DecidableEq

/-- `create_login_response` (auth.py lines 261-271).  The two
`datetime.now(UTC)` calls are the explicit clock readings `tAccess` and
`tRefresh` (read in that order). -/
def create_login_response (s : Settings) (tAccess : Nat) (tRefresh : Nat)
    (user : User) : AuthResponse :=
  { access_token_expiration_date := tAccess + s.ACCESS_TOKEN_EXPIRES_SECONDS
    refresh_token_expiration_date := tRefresh + s.REFRESH_TOKEN_EXPIRES_SECONDS
    token_type := "bearer"
    user := user }

/-- `authenticate_or_register_with_otp` (auth.py lines 210-236): try OTP
authentication; on `InvalidTokenException`, auto-register the email when no
user row exists, otherwise fail with the 401 `HTTPException`.  The
new-account notification is a fire-and-forget background task with no effect
on the state or the response. -/
def authenticate_or_register_with_otp (s : Settings) (db : Db) (now : Nat)
    (email : String) (vc : String) (freshUserId : Nat) :
    Except AuthError (AuthResponse × Db) :=
  match authenticate_with_otp s db now email vc with
  | .ok (user, db1) => .ok (create_login_response s now now user, db1)
  | .error .invalidToken =>
    match getUserByEmail db email with
    | none =>
      let r := user_create db email freshUserId
      .ok (create_login_response s now now r.1, r.2)
    | some _ => .error .unauthorized
  | .error e => .error e

/-- Python `str.lower()` on the email strings the endpoints receive, modelled
as per-character lowercasing. -/
def lower (s : String) : String :=
  String.mk (s.data.map Char.toLower)

/-- `verify_otp` endpoint (auth.py lines 239-258): lowercase the email, then
delegate to the orchestrator. -/
def verify_otp (s : Settings) (db : Db) (now : Nat) (email : String)
    (vc : String) (freshUserId : Nat) : Except AuthError (AuthResponse × Db) :=
  authenticate_or_register_with_otp s db now (lower email) vc freshUserId

/-- `request_otp` endpoint (auth.py lines 178-207): lowercase the email;
acknowledge and stop for the reserved reviewer email; otherwise create an OTP
for the email (bound to the existing user when there is one) and return the
acknowledgement or development-mode message. -/
def request_otp (s : Settings) (db : Db) (emailRaw : String) (now : Nat)
    (freshCode : String) (freshId : Nat) : String × Db :=
  let email := lower emailRaw
  if email == s.APPLE_REVIEW_TEAM_EMAIL then
    ("Gracefully handled: Apple review team cannot request a verification code",
     db)
  else
    let user := getUserByEmail db email
    let r := create_for_email s db email (user.map (fun u => u.id)) now
      freshCode freshId
    if s.EMAILS_ENABLED then
      ("If an account exists, a verification code has been sent", r.2)
    else
      ("Development mode: Your verification code is "
        ++ r.1.verification_code, r.2)

/-! Concrete fixtures used to exercise the definitions. -/

/-- Development-mode configuration fixture. -/
def exSettings : Settings :=
  { IS_PRODUCTION := false
    PERSISTENT_OTP := "999999"
    APPLE_REVIEW_TEAM_EMAIL := "apple.review@example.com"
    VERIFICATION_CODE_EXPIRATION_MINUTES := 15
    APPLE_REVIEW_TEAM_OTP_EXPIRATION_DAYS := 30
    ACCESS_TOKEN_EXPIRES_SECONDS := 3600
    REFRESH_TOKEN_EXPIRES_SECONDS := 86400
    EMAILS_ENABLED := false }

/-- Production-mode variant of the configuration fixture. -/
def exSettingsProd : Settings :=
  { exSettings with IS_PRODUCTION := true }

/-- Ordinary registered user fixture. -/
def alice : User :=
  { id := 1, email := "alice@example.com", password_hash := none,
    archived := false }

/-- Reviewer-account user fixture. -/
def reviewerUser : User :=
  { id := 2, email := "apple.review@example.com", password_hash := none,
    archived := false }

/-- Outstanding OTP fixture bound to `alice`. -/
def aliceOtp : OneTimePassword :=
  { id := 10, verification_code := "234561", user_id := some 1,
    email := "alice@example.com", expires_at := 1000 }

/-- Long-lived reviewer OTP fixture bound to `reviewerUser`. -/
def reviewerOtp : OneTimePassword :=
  { id := 11, verification_code := "345612", user_id := some 2,
    email := "apple.review@example.com", expires_at := 2000000 }

/-- Store fixture holding both users and both OTP rows. -/
def exDb : Db :=
  { users := [alice, reviewerUser], otps := [aliceOtp, reviewerOtp] }

/-! List-query lemmas shared by the proofs below. -/

theorem head?_filter_mem {α : Type} {p : α → Bool} {l : List α} {x : α}
    (h : (l.filter p).head? = some x) : x ∈ l ∧ p x := by
  cases hf : l.filter p with
  | nil => rw [hf] at h; cases h
  | cons a t =>
    rw [hf] at h
    simp only [List.head?_cons, Option.some.injEq] at h
    have hx : x ∈ l.filter p := by
      rw [hf, ← h]; exact List.mem_cons_self _ _
    exact ⟨List.mem_of_mem_filter hx, List.of_mem_filter hx⟩

theorem head?_filter_eq_none {α : Type} {p : α → Bool} {l : List α}
    (h : ∀ a ∈ l, ¬ p a) : (l.filter p).head? = none := by
  rw [List.filter_eq_nil_iff.mpr h]
  rfl

theorem head?_filter_of_key_nodup {α β : Type} [DecidableEq β] (f : α → β) :
    ∀ (l : List α) (x : α), (l.map f).Nodup → x ∈ l →
      (l.filter (fun a => f a == f x)).head? = some x := by
  intro l
  induction l with
  | nil =>
    intro x _ hx
    cases hx
  | cons a t ih =>
    intro x hnd hx
    simp only [List.map_cons, List.nodup_cons] at hnd
    rcases List.mem_cons.mp hx with rfl | hxt
    · simp [List.filter_cons]
    · have hfa : ¬ (f a = f x) := by
        intro he
        exact hnd.1 (he ▸ List.mem_map_of_mem f hxt)
      have hfb : (f a == f x) = false := by
        exact beq_eq_false_iff_ne.mpr hfa
      rw [List.filter_cons, hfb]
      simp only [Bool.false_eq_true, if_false]
      exact ih x hnd.2 hxt

/-! Facts shared by several proofs below. -/

theorem get_valid_some_elim {db : Db} {vc : String} {now : Nat}
    {otp : OneTimePassword} (h : get_valid_otp db vc now = some otp) :
    get_by_verification_code db vc = some otp ∧ now < otp.expires_at := by
  unfold get_valid_otp at h
  cases hl : get_by_verification_code db vc with
  | none => rw [hl] at h; cases h
  | some r =>
    rw [hl] at h
    simp only [] at h
    by_cases ht : now < r.expires_at
    · rw [if_pos ht] at h
      cases h
      exact ⟨rfl, ht⟩
    · rw [if_neg ht] at h
      cases h

theorem get_valid_some_intro {db : Db} {vc : String} {now : Nat}
    {otp : OneTimePassword} (hl : get_by_verification_code db vc = some otp)
    (ht : now < otp.expires_at) : get_valid_otp db vc now = some otp := by
  unfold get_valid_otp
  rw [hl]
  simp only []
  rw [if_pos ht]

theorem get_by_code_of_mem {db : Db} {otp : OneTimePassword}
    (hnodup : codesUnique db) (hmem : otp ∈ db.otps) :
    get_by_verification_code db otp.verification_code = some otp := by
  unfold get_by_verification_code
  simpa using head?_filter_of_key_nodup
    (fun o : OneTimePassword => o.verification_code) db.otps otp hnodup hmem

theorem no_code_after_remove {db : Db} {otp : OneTimePassword} {vc : String}
    (hnodup : codesUnique db) (hmem : otp ∈ db.otps)
    (hcode : otp.verification_code = vc) :
    ∀ o ∈ (remove db otp).otps, o.verification_code ≠ vc := by
  intro o ho hovc
  unfold remove at ho
  simp only [List.mem_filter] at ho
  have hoeq : o = otp :=
    List.inj_on_of_nodup_map hnodup ho.1 hmem (by rw [hovc, hcode])
  rw [hoeq] at ho
  simp at ho

theorem get_valid_none_of_no_code {db : Db} {vc : String}
    (h : ∀ o ∈ db.otps, o.verification_code ≠ vc) :
    ∀ t, get_valid_otp db vc t = none := by
  intro t
  unfold get_valid_otp
  have hl : get_by_verification_code db vc = none := by
    unfold get_by_verification_code
    apply head?_filter_eq_none
    intro a ha
    simp only [beq_iff_eq]
    exact h a ha
  rw [hl]

/-! Claim theorems. -/

/-- Claim C5: `get_valid_otp` returns a stored OTP row only when its
`expires_at` is strictly greater than the current time (first conjunct: any
returned row matches the submitted code, is in the store, and is unexpired),
and a row whose expiry is not in the future never verifies regardless of code
correctness (second conjunct, under the unique-code index).  The lookup is a
pure query on the store — it returns no modified state, so it deletes
nothing; expired rows are removed only by the lazy sweep. -/
theorem get_valid_otp_expiry_gate (db : Db) (vc : String) (now : Nat) :
    (∀ otp, get_valid_otp db vc now = some otp →
        otp ∈ db.otps ∧ otp.verification_code = vc ∧ now < otp.expires_at) ∧
    (codesUnique db → ∀ otp, otp ∈ db.otps → otp.verification_code = vc →
        otp.expires_at ≤ now → get_valid_otp db vc now = none) := by
  constructor
  · intro otp h
    unfold get_valid_otp at h
    cases hlook : get_by_verification_code db vc with
    | none => rw [hlook] at h; cases h
    | some r =>
      rw [hlook] at h
      simp only [] at h
      by_cases ht : now < r.expires_at
      · rw [if_pos ht] at h
        cases h
        have hm := head?_filter_mem hlook
        exact ⟨hm.1, by simpa using hm.2, ht⟩
      · rw [if_neg ht] at h
        cases h
  · intro hnodup otp hmem hcode hexp
    have hlook : get_by_verification_code db vc = some otp := by
      unfold get_by_verification_code
      rw [← hcode]
      exact head?_filter_of_key_nodup (fun o => o.verification_code) db.otps
        otp hnodup hmem
    unfold get_valid_otp
    rw [hlook]
    simp only []
    rw [if_neg (show ¬ now < otp.expires_at by omega)]

/-- Witness for C5: in the fixture store, Alice's code is returned while
fresh and refused once its expiry has passed. -/
theorem get_valid_otp_expiry_gate_witness :
    get_valid_otp exDb "234561" 1000 = none :=
  (get_valid_otp_expiry_gate exDb "234561" 1000).2 (by decide) aliceOtp
    (by decide) rfl (by decide)

/-- Claim C7: outside production, a submitted code equal to the configured
persistent development code authenticates the existing user looked up by
email and returns the store unchanged (no consumption, no expiry check); in
production the bypass never matches and `authenticate_with_otp` is exactly
the normal code-lookup path. -/
theorem persistent_bypass_behavior (s : Settings) (db : Db) (now : Nat)
    (email : String) (vc : String) :
    (s.IS_PRODUCTION = false → vc = s.PERSISTENT_OTP → ∀ u,
        getUserByEmail db email = some u →
        authenticate_with_otp s db now email vc = .ok (u, db)) ∧
    (s.IS_PRODUCTION = true →
        authenticate_with_otp s db now email vc
          = otp_lookup_path s db now email vc) := by
  constructor
  · intro hprod hvc u hu
    unfold authenticate_with_otp handle_persistent_otp
    rw [hprod, hvc]
    simp [hu]
  · intro hprod
    unfold authenticate_with_otp handle_persistent_otp
    rw [hprod]
    simp

/-- Witness for C7: the bypass code logs Alice in without touching the
fixture store. -/
theorem persistent_bypass_behavior_witness :
    authenticate_with_otp exSettings exDb 100 "alice@example.com" "999999"
      = .ok (alice, exDb) :=
  (persistent_bypass_behavior exSettings exDb 100 "alice@example.com"
    "999999").1 rfl rfl alice (by decide)

/-- Claim C8: the expiry sweep returns exactly the rows whose expiry has
passed, and the store afterwards holds exactly the rows whose expiry has not
passed — no expired row remains, no unexpired row is affected, and the user
table is untouched.  The deleting wrapper around `get_expired_otps` is
modelled from the spec (see `sweep_expired`). -/
theorem sweep_expired_removes_exactly_expired (db : Db) (now : Nat) :
    (∀ o, o ∈ (sweep_expired db now).1 ↔ o ∈ db.otps ∧ o.expires_at < now) ∧
    (∀ o, o ∈ (sweep_expired db now).2.otps
        ↔ o ∈ db.otps ∧ ¬ o.expires_at < now) ∧
    (sweep_expired db now).2.users = db.users := by
  refine ⟨?_, ?_, rfl⟩ <;> intro o <;>
    simp [sweep_expired, get_expired_otps, List.mem_filter]

/-- Witness for C8: sweeping the fixture store at a late instant deletes
Alice's stale code and keeps the long-lived reviewer code. -/
theorem sweep_expired_removes_exactly_expired_witness :
    aliceOtp ∈ (sweep_expired exDb 5000).1 ∧
    reviewerOtp ∈ (sweep_expired exDb 5000).2.otps :=
  ⟨((sweep_expired_removes_exactly_expired exDb 5000).1 aliceOtp).mpr
      ⟨by decide, by decide⟩,
   ((sweep_expired_removes_exactly_expired exDb 5000).2.1 reviewerOtp).mpr
      ⟨by decide, by decide⟩⟩

/-- Claim C9: with the two clock readings in issuance order and positive
configured TTLs, both expiry timestamps of a login response lie strictly
after the issuance instant, and when the configured refresh TTL is at least
the access TTL the refresh expiry is at least the access expiry. -/
theorem login_token_expiry_horizons (s : Settings) (u : User) (t1 t2 : Nat)
    (hmono : t1 ≤ t2)
    (ha : 0 < s.ACCESS_TOKEN_EXPIRES_SECONDS)
    (hr : 0 < s.REFRESH_TOKEN_EXPIRES_SECONDS)
    (hle : s.ACCESS_TOKEN_EXPIRES_SECONDS ≤ s.REFRESH_TOKEN_EXPIRES_SECONDS) :
    t1 < (create_login_response s t1 t2 u).access_token_expiration_date ∧
    t1 < (create_login_response s t1 t2 u).refresh_token_expiration_date ∧
    (create_login_response s t1 t2 u).access_token_expiration_date ≤
      (create_login_response s t1 t2 u).refresh_token_expiration_date := by
  refine ⟨?_, ?_, ?_⟩
  · show t1 < t1 + s.ACCESS_TOKEN_EXPIRES_SECONDS
    omega
  · show t1 < t2 + s.REFRESH_TOKEN_EXPIRES_SECONDS
    omega
  · show t1 + s.ACCESS_TOKEN_EXPIRES_SECONDS
        ≤ t2 + s.REFRESH_TOKEN_EXPIRES_SECONDS
    omega

/-- Witness for C9: the fixture configuration at instant 50. -/
theorem login_token_expiry_horizons_witness :
    50 < (create_login_response exSettings 50 50 alice).access_token_expiration_date ∧
    50 < (create_login_response exSettings 50 50 alice).refresh_token_expiration_date ∧
    (create_login_response exSettings 50 50 alice).access_token_expiration_date ≤
      (create_login_response exSettings 50 50 alice).refresh_token_expiration_date :=
  login_token_expiry_horizons exSettings alice 50 50 (by decide) (by decide)
    (by decide) (by decide)

/-- Claim C10: a `request_otp` call whose submitted email lowercases to the
reserved reviewer email returns the acknowledgement message with the database
— both tables — unchanged: no OTP row is created or deleted. -/
theorem request_otp_reviewer_noop (s : Settings) (db : Db) (emailRaw : String)
    (now : Nat) (freshCode : String) (freshId : Nat)
    (h : lower emailRaw = s.APPLE_REVIEW_TEAM_EMAIL) :
    request_otp s db emailRaw now freshCode freshId =
      ("Gracefully handled: Apple review team cannot request a verification code",
       db) := by
  unfold request_otp
  simp [h]

/-- Witness for C10: a mixed-case spelling of the reviewer email leaves the
fixture store untouched. -/
theorem request_otp_reviewer_noop_witness :
    request_otp exSettings exDb "Apple.Review@Example.com" 5 "555555" 99
      = ("Gracefully handled: Apple review team cannot request a verification code",
         exDb) :=
  request_otp_reviewer_noop exSettings exDb "Apple.Review@Example.com" 5
    "555555" 99 (by decide)

/-- Claim C1: when OTP verification succeeds on the normal path — the
persistent bypass did not fire and the matched record's email is not the
reserved reviewer email — the resulting state is exactly the store with the
matched record deleted (consumed), every remaining row carries a different
code, and repeating the identical verification request against the new state
fails with `InvalidToken`. -/
theorem otp_consumed_and_replay_fails (s : Settings) (db : Db) (now : Nat)
    (email vc : String) (otp : OneTimePassword) (user : User) (db' : Db)
    (hnodup : codesUnique db)
    (hbypass : handle_persistent_otp s db vc email = none)
    (hmatch : get_valid_code db vc now = some otp)
    (hrev : otp.email ≠ s.APPLE_REVIEW_TEAM_EMAIL)
    (hok : authenticate_with_otp s db now email vc = .ok (user, db')) :
    db' = remove db otp ∧
    (∀ o ∈ db'.otps, o.verification_code ≠ vc) ∧
    authenticate_with_otp s db' now email vc = .error .invalidToken := by
  have hlook : get_by_verification_code db vc = some otp :=
    (get_valid_some_elim hmatch).1
  have hmemcode := head?_filter_mem hlook
  have hmem : otp ∈ db.otps := hmemcode.1
  have hcode : otp.verification_code = vc := by
    have h2 := hmemcode.2
    simpa using h2
  have happle : handle_apple_review_team_otp s db otp = none := by
    unfold handle_apple_review_team_otp
    rw [if_pos (bne_iff_ne.mpr hrev)]
  have hok' : otp_lookup_path s db now email vc = .ok (user, db') := by
    unfold authenticate_with_otp at hok
    rw [hbypass] at hok
    simpa using hok
  unfold otp_lookup_path at hok'
  rw [hmatch] at hok'
  simp only [] at hok'
  rw [happle] at hok'
  simp only [] at hok'
  cases hbe : otp.email != email with
  | true => rw [hbe] at hok'; simp at hok'
  | false =>
    rw [hbe] at hok'
    simp only [Bool.false_eq_true, if_false] at hok'
    cases hu : otpUser db otp with
    | none => rw [hu] at hok'; simp at hok'
    | some u0 =>
      rw [hu] at hok'
      simp only [Except.ok.injEq, Prod.mk.injEq] at hok'
      obtain ⟨-, hdb⟩ := hok'
      subst hdb
      have hgone : ∀ o ∈ (remove db otp).otps, o.verification_code ≠ vc :=
        no_code_after_remove hnodup hmem hcode
      refine ⟨rfl, hgone, ?_⟩
      have hbypass2 : handle_persistent_otp s (remove db otp) vc email = none :=
        hbypass
      unfold authenticate_with_otp
      rw [hbypass2]
      simp only []
      unfold otp_lookup_path
      have hnone : get_valid_code (remove db otp) vc now = none :=
        get_valid_none_of_no_code hgone now
      rw [hnone]

/-- Witness for C1: verifying Alice's code consumes her row in the fixture
store, and replaying the same request fails. -/
theorem otp_consumed_and_replay_fails_witness :
    ({ users := [alice, reviewerUser], otps := [reviewerOtp] } : Db)
        = remove exDb aliceOtp ∧
    (∀ o ∈ ({ users := [alice, reviewerUser], otps := [reviewerOtp] } : Db).otps,
        o.verification_code ≠ "234561") ∧
    authenticate_with_otp exSettings
        { users := [alice, reviewerUser], otps := [reviewerOtp] } 100
        "alice@example.com" "234561" = .error .invalidToken :=
  otp_consumed_and_replay_fails exSettings exDb 100 "alice@example.com"
    "234561" aliceOtp alice
    { users := [alice, reviewerUser], otps := [reviewerOtp] }
    (by decide) (by decide) (by decide) (by decide) rfl

theorem filter_email_of_create (l : List OneTimePassword) (email : String)
    (x : OneTimePassword) (hx : x.email = email) :
    ((l.filter (fun o => !(o.email == email)) ++ [x]).filter
        (fun o => o.email == email)) = [x] := by
  rw [List.filter_append, List.filter_filter]
  simp [hx]

/-- Claim C2: `create_for_email` first deletes every existing row for the
email and then persists exactly one new row whose expiry is now plus the
configured TTL in minutes; hence after two successive create requests for an
email exactly one row for that email exists, and (when the codes are fresh,
as the unique-code index guarantees) the code from the first request no
longer verifies at any instant. -/
theorem create_twice_single_active_row (s : Settings) (db : Db)
    (email : String) (uid1 uid2 : Option Nat) (now1 now2 : Nat)
    (c1 c2 : String) (id1 id2 : Nat) (r1 r2 : OneTimePassword × Db)
    (h1 : create_for_email s db email uid1 now1 c1 id1 = r1)
    (h2 : create_for_email s r1.2 email uid2 now2 c2 id2 = r2)
    (hfresh : ∀ o ∈ db.otps, o.verification_code ≠ c1)
    (hne : c2 ≠ c1) :
    r1.1.expires_at = now1 + s.VERIFICATION_CODE_EXPIRATION_MINUTES * 60 ∧
    r1.2.otps.filter (fun o => o.email == email) = [r1.1] ∧
    r2.2.otps.filter (fun o => o.email == email) = [r2.1] ∧
    ∀ t, get_valid_otp r2.2 c1 t = none := by
  subst h1
  subst h2
  refine ⟨rfl, ?_, ?_, ?_⟩
  · exact filter_email_of_create db.otps email _ rfl
  · exact filter_email_of_create _ email _ rfl
  · apply get_valid_none_of_no_code
    intro o ho
    simp only [create_for_email] at ho
    rcases List.mem_append.mp ho with h | h
    · have h2 := List.mem_of_mem_filter h
      have hp := List.of_mem_filter h
      rcases List.mem_append.mp h2 with h3 | h3
      · exact hfresh o (List.mem_of_mem_filter h3)
      · rw [List.mem_singleton.mp h3] at hp
        simp at hp
    · rw [List.mem_singleton.mp h]
      exact hne

/-- Witness for C2: two successive creates for a fresh email leave exactly
the second row active for that email, and the first code no longer looks up. -/
theorem create_twice_single_active_row_witness :
    (create_for_email exSettings (create_for_email exSettings exDb
          "bob@example.com" none 0 "111112" 20).2 "bob@example.com" none 10
          "111113" 21).2.otps.filter (fun o => o.email == "bob@example.com")
      = [(create_for_email exSettings (create_for_email exSettings exDb
          "bob@example.com" none 0 "111112" 20).2 "bob@example.com" none 10
          "111113" 21).1] ∧
    get_valid_otp (create_for_email exSettings (create_for_email exSettings
        exDb "bob@example.com" none 0 "111112" 20).2 "bob@example.com" none 10
        "111113" 21).2 "111112" 5 = none :=
  ⟨(create_twice_single_active_row exSettings exDb "bob@example.com" none none
      0 10 "111112" "111113" 20 21 _ _ rfl rfl (by decide) (by decide)).2.2.1,
   (create_twice_single_active_row exSettings exDb "bob@example.com" none none
      0 10 "111112" "111113" 20 21 _ _ rfl rfl (by decide) (by decide)).2.2.2 5⟩

theorem orchestrator_registers (s : Settings) (db : Db) (now : Nat)
    (email vc : String) (fid : Nat)
    (hinv : authenticate_with_otp s db now email vc = .error .invalidToken)
    (hnone : getUserByEmail db email = none) :
    authenticate_or_register_with_otp s db now email vc fid
      = .ok (create_login_response s now now
          { id := fid, email := email, password_hash := none,
            archived := false },
         { db with users := db.users ++
             [{ id := fid, email := email, password_hash := none,
                archived := false }] }) := by
  unfold authenticate_or_register_with_otp
  rw [hinv]
  simp only []
  rw [hnone]
  rfl

/-- Claim C3: whenever the OTP authenticator fails with `InvalidToken`, the
orchestrator auto-registers the email when no user row exists — the state
gains exactly one new user carrying only the email (no password hash) and a
login response for that user is returned — and fails with the 401
Unauthorized `HTTPException` when a user already exists; in the latter case
no write is issued, so the store and the existing user are untouched. -/
theorem authenticate_or_register_on_invalid_token (s : Settings) (db : Db)
    (now : Nat) (email vc : String) (fid : Nat)
    (hinv : authenticate_with_otp s db now email vc = .error .invalidToken) :
    (getUserByEmail db email = none →
        authenticate_or_register_with_otp s db now email vc fid
          = .ok (create_login_response s now now
              { id := fid, email := email, password_hash := none,
                archived := false },
             { db with users := db.users ++
                 [{ id := fid, email := email, password_hash := none,
                    archived := false }] })) ∧
    (∀ u, getUserByEmail db email = some u →
        authenticate_or_register_with_otp s db now email vc fid
          = .error .unauthorized) := by
  constructor
  · intro hnone
    exact orchestrator_registers s db now email vc fid hinv hnone
  · intro u hsome
    unfold authenticate_or_register_with_otp
    rw [hinv]
    simp only []
    rw [hsome]

/-- Witness for C3: with an invalid code, Alice's registered email draws the
401, while an unknown email is provisioned and logged in. -/
theorem authenticate_or_register_on_invalid_token_witness :
    authenticate_or_register_with_otp exSettings exDb 100 "alice@example.com"
        "777777" 55 = .error .unauthorized ∧
    authenticate_or_register_with_otp exSettings exDb 100 "carol@example.com"
        "777777" 55
      = .ok (create_login_response exSettings 100 100
          { id := 55, email := "carol@example.com", password_hash := none,
            archived := false },
         { exDb with users := exDb.users ++
             [{ id := 55, email := "carol@example.com", password_hash := none,
                archived := false }] }) :=
  ⟨(authenticate_or_register_on_invalid_token exSettings exDb 100
      "alice@example.com" "777777" 55 rfl).2 alice (by decide),
   (authenticate_or_register_on_invalid_token exSettings exDb 100
      "carol@example.com" "777777" 55 rfl).1 (by decide)⟩

/-- Claim C4: a syntactically valid 6-digit code that was never issued,
submitted for an email that has no user row and no OTP row, silently
auto-registers: the call succeeds, a user with that (lowercased) email and no
password is appended, and a login response for it is returned — no code check
ever happens. -/
theorem never_issued_code_autoregisters (s : Settings) (db : Db) (now : Nat)
    (email vc : String) (fid : Nat)
    (hlen : vc.length = 6) (hdig : vc.data.all (fun c => c.isDigit) = true)
    (hnocode : ∀ o ∈ db.otps, o.verification_code ≠ vc)
    (hnouser : ∀ u ∈ db.users, u.email ≠ lower email)
    (hnootp : ∀ o ∈ db.otps, o.email ≠ lower email) :
    verify_otp s db now email vc fid
      = .ok (create_login_response s now now
          { id := fid, email := lower email, password_hash := none,
            archived := false },
         { db with users := db.users ++
             [{ id := fid, email := lower email, password_hash := none,
                archived := false }] }) := by
  have husers : getUserByEmail db (lower email) = none := by
    unfold getUserByEmail
    apply head?_filter_eq_none
    intro u hu
    simp only [Bool.and_eq_true, beq_iff_eq]
    rintro ⟨he, -⟩
    exact hnouser u hu he
  have hbyp : handle_persistent_otp s db vc (lower email) = none := by
    unfold handle_persistent_otp
    split
    · rfl
    · split
      · rfl
      · exact husers
  have hinv : authenticate_with_otp s db now (lower email) vc
      = .error .invalidToken := by
    unfold authenticate_with_otp
    rw [hbyp]
    simp only []
    unfold otp_lookup_path
    have hnone : get_valid_code db vc now = none :=
      get_valid_none_of_no_code hnocode now
    rw [hnone]
  unfold verify_otp
  exact orchestrator_registers s db now (lower email) vc fid hinv husers

/-- Witness for C4: the never-issued code 888888 with a brand-new mixed-case
email registers silently against the fixture store. -/
theorem never_issued_code_autoregisters_witness :
    verify_otp exSettings exDb 100 "NEW@Example.com" "888888" 77
      = .ok (create_login_response exSettings 100 100
          { id := 77, email := lower "NEW@Example.com", password_hash := none,
            archived := false },
         { exDb with users := exDb.users ++
             [{ id := 77, email := lower "NEW@Example.com",
                password_hash := none, archived := false }] }) :=
  never_issued_code_autoregisters exSettings exDb 100 "NEW@Example.com"
    "888888" 77 (by decide) (by decide) (by decide) (by decide) (by decide)

/-- Claim C6: a generated reviewer OTP verifies to its bound user without
being consumed — the store is returned unchanged, so verifying again
succeeds identically within its TTL — and once it is explicitly deleted via
`delete_apple_review_team_otp`, the same verification request fails with
`InvalidToken`. -/
theorem reviewer_otp_multi_use_until_deleted (s : Settings) (db : Db)
    (now : Nat) (otp : OneTimePassword) (u : User) (email : String)
    (hnodupC : codesUnique db) (hnodupE : emailsUnique db)
    (hmem : otp ∈ db.otps) (hrev : otp.email = s.APPLE_REVIEW_TEAM_EMAIL)
    (hvalid : now < otp.expires_at)
    (huser : otpUser db otp = some u)
    (hbypass : handle_persistent_otp s db otp.verification_code email = none) :
    authenticate_with_otp s db now email otp.verification_code = .ok (u, db) ∧
    authenticate_with_otp s (delete_apple_review_team_otp s db).2 now email
        otp.verification_code = .error .invalidToken := by
  have hlook : get_by_verification_code db otp.verification_code = some otp :=
    get_by_code_of_mem hnodupC hmem
  have hvalidlook : get_valid_code db otp.verification_code now = some otp :=
    get_valid_some_intro hlook hvalid
  have happle : handle_apple_review_team_otp s db otp = some u := by
    unfold handle_apple_review_team_otp
    rw [hrev]
    simp [huser]
  constructor
  · unfold authenticate_with_otp
    rw [hbypass]
    simp only []
    unfold otp_lookup_path
    rw [hvalidlook]
    simp only []
    rw [happle]
  · have hdel : (delete_apple_review_team_otp s db).2 = remove db otp := by
      unfold delete_apple_review_team_otp get_apple_review_team_otp
      have hotp : getOtpByEmail db s.APPLE_REVIEW_TEAM_EMAIL = some otp := by
        unfold getOtpByEmail
        rw [← hrev]
        simpa using head?_filter_of_key_nodup
          (fun o : OneTimePassword => o.email) db.otps otp hnodupE hmem
      rw [hotp]
    rw [hdel]
    have hgone : ∀ o ∈ (remove db otp).otps,
        o.verification_code ≠ otp.verification_code :=
      no_code_after_remove hnodupC hmem rfl
    have hbyp2 : handle_persistent_otp s (remove db otp)
        otp.verification_code email = none := hbypass
    unfold authenticate_with_otp
    rw [hbyp2]
    simp only []
    unfold otp_lookup_path
    have hnone : get_valid_code (remove db otp) otp.verification_code now
        = none := get_valid_none_of_no_code hgone now
    rw [hnone]

/-- Witness for C6: the fixture reviewer OTP verifies repeatably and stops
verifying after explicit deletion. -/
theorem reviewer_otp_multi_use_until_deleted_witness :
    authenticate_with_otp exSettings exDb 100 "apple.review@example.com"
        "345612" = .ok (reviewerUser, exDb) ∧
    authenticate_with_otp exSettings
        (delete_apple_review_team_otp exSettings exDb).2 100
        "apple.review@example.com" "345612" = .error .invalidToken :=
  reviewer_otp_multi_use_until_deleted exSettings exDb 100 reviewerOtp
    reviewerUser "apple.review@example.com" (by decide) (by decide)
    (by decide) (by decide) (by decide) (by decide) (by decide)

end OtpCore
